import Mathlib

/-!
Shallow embedding of the almapipo / alma_rest repository and theorems about
its behaviour: the generic REST client (src/alma_rest/rest_call_api.py), the
namespaced orchestrator (src/alma_rest/alma_rest.py), the flat GET-only
orchestrator (alma_rest.py at the repository root) and the CSV helper
(src/almapipo/input_helpers.py).

Machine-level conventions: Python strings are Lean strings; Python None for
an optional string is Option.none; a function that can raise returns Except;
log output is modelled as an explicit list of entries. Python string
primitives used by the source (split, startswith, substring membership,
slicing) are re-implemented on the character list of a Lean string so that
all definitions compute by kernel reduction.
-/

namespace Almapipo

/-- Auxiliary for splitComma: walk the characters, cutting at each comma;
acc holds the characters of the current segment in reverse. -/
def splitCommaAux : List Char → List Char → List String
  | [], acc => [String.mk acc.reverse]
  | c :: rest, acc =>
    if c = ',' then String.mk acc.reverse :: splitCommaAux rest []
    else splitCommaAux rest (c :: acc)

/-- Python str.split(s, comma). The result always has at least one element
and keeps empty segments, as in Python. -/
def splitComma (s : String) : List String :=
  splitCommaAux s.data []

/-- Python s.startswith(pat). -/
def strHasPfx (s pat : String) : Bool :=
  List.isPrefixOf pat.data s.data

/-- Auxiliary for containsSub: check pat at every suffix of the text. -/
def containsSubAux (pat : List Char) : List Char → Bool
  | [] => List.isPrefixOf pat []
  | c :: rest => List.isPrefixOf pat (c :: rest) || containsSubAux pat rest

/-- Python substring membership test: pat in s. -/
def containsSub (s pat : String) : Bool :=
  containsSubAux pat.data s.data

/-- Python slice s[0:n]: at most the first n characters, never an error. -/
def strTake (s : String) (n : Nat) : String :=
  String.mk (s.data.take n)

/-- Level of one line emitted through the logging module. -/
inductive LogLevel
  | info
  | warning
  | error
  deriving Repr, DecidableEq

/-- One log line: its level and its rendered message. -/
structure LogEntry where
  level : LogLevel
  message : String
  deriving Repr, DecidableEq

/-- Python exceptions raised by the embedded code. -/
inductive PyError
  | typeError
  | valueError
  | notImplementedError
  | indexError
  deriving Repr, DecidableEq

/-- An HTTP response as the client sees it: the numeric status code and the
utf-8 decoded body text. -/
structure Response where
  status_code : Nat
  content : String
  deriving Repr, DecidableEq

/-- Embeds urllib.parse.urlencode restricted to keys and values made of
unreserved characters, where no percent escaping occurs; every parameter
list considered in this development is of that shape. -/
def urlencode (parameters : List (String × String)) : String :=
  String.intercalate ("&") (parameters.map (fun p => p.1 ++ "=" ++ p.2))

/-- Embeds add_parameters (rest_call_api.py lines 113 to 116). The Python
body rebinds its local url to url + querystring and falls off the end, so
every caller receives None; this definition returns the value the local
holds at that point, which each call site of the source discards. -/
def add_parameters (url : String) (parameters : List (String × String)) : String :=
  url ++ "?" ++ urlencode parameters

/-- GenericApi (rest_call_api.py line 29): a client instance scoped to one
resource base path. -/
structure GenericApi where
  base_path : String
  deriving Repr, DecidableEq

/-- Embeds the URL argument GenericApi.retrieve passes to call_api
(rest_call_api.py lines 88 to 91). The conditional add_parameters call
neither returns the extended URL nor mutates base_path, since Python strings
are immutable and the returned None is dropped; its value is bound here and
dropped in the same way. The argument handed to call_api is the f-string of
base_path and record_id, with no query string. -/
def GenericApi.retrieve_request_path (api : GenericApi) (record_id : String)
    (url_parameters : List (String × String)) : String :=
  let _dropped :=
    if url_parameters.isEmpty then none
    else some (add_parameters api.base_path url_parameters)
  api.base_path ++ record_id

/-- Embeds alma_url = api_base_url + url_parameters inside call_api
(rest_call_api.py line 139). -/
def call_api_url (api_base_url url_parameters : String) : String :=
  api_base_url ++ url_parameters

/-- Embeds call_api (rest_call_api.py lines 119 to 159), parameterised by
the response the HTTP session returns. The first component is the returned
value (none models falling off the end, which returns Python None) or the
raised exception; the second is the list of log lines emitted. On the
matching-status branch, when the body neither contains errorList nor starts
with the xml declaration while the expected status is not 204, source line
153 concatenates a one-element set literal onto the log string, which
raises TypeError before the logger call on line 154 runs. -/
def call_api (url_parameters method : String) (status_code : Nat)
    (resp : Response) : Except PyError (Option String) × List LogEntry :=
  if resp.status_code = status_code then
    let alma_response_content := resp.content
    let completed : LogEntry :=
      ⟨LogLevel.info, method ++ " for record \"" ++ url_parameters ++ "\" completed."⟩
    if containsSub alma_response_content ("<errorList>") then
      (Except.ok (some alma_response_content),
        [completed,
         ⟨LogLevel.warning,
          ("The response contained an error, even though it had status code ")
            ++ toString status_code ++ ". Reason: "
            ++ toString resp.status_code ++ " - " ++ alma_response_content⟩])
    else if (!strHasPfx alma_response_content ("<?xml")) && (status_code != 204) then
      (Except.error PyError.typeError, [completed])
    else
      (Except.ok (some alma_response_content), [completed])
  else
    (Except.ok none,
      [⟨LogLevel.error,
        method ++ " for record \"" ++ url_parameters
          ++ "\" failed. Reason: " ++ toString resp.status_code
          ++ " - " ++ resp.content⟩])

/-- C1: the claim says a nonempty url_parameters dictionary makes the request
go to base URL plus path plus record id plus the url-encoded query string.
Evaluating the code at base path /bibs/, record id 9912345 and parameter
list limit=10 shows the request URL carries no query string at all: the
string add_parameters computes is discarded, so the claim fails on the code
while the documented intent of add_parameters is clearly to extend the URL. -/
theorem C1_params_discarded :
    call_api_url ("https://api.example.org/almaws/v1")
        (GenericApi.retrieve_request_path ⟨("/bibs/")⟩ ("9912345")
          [(("limit"), ("10"))])
      = ("https://api.example.org/almaws/v1/bibs/9912345")
    ∧ add_parameters ("/bibs/") [(("limit"), ("10"))] = ("/bibs/?limit=10")
    ∧ call_api_url ("https://api.example.org/almaws/v1")
        (GenericApi.retrieve_request_path ⟨("/bibs/")⟩ ("9912345")
          [(("limit"), ("10"))])
      ≠ ("https://api.example.org/almaws/v1/bibs/9912345?limit=10") := by
  refine ⟨rfl, rfl, by decide⟩

/-- C2: the claim says that on a matching status whose body does not start
with the xml declaration (expected status not 204) the client logs an error
and still returns the body. Evaluating the code on a 200 response with body
that is not xml shows call_api instead raises TypeError, because source line
153 adds a set literal to the log string; only the informational completed
line is emitted and no body is returned. -/
theorem C2_typeerror_on_non_xml_body :
    call_api ("/bibs/9912345") ("GET") 200 ⟨200, ("this is not xml")⟩
      = (Except.error PyError.typeError,
         [⟨LogLevel.info, ("GET for record \"/bibs/9912345\" completed.")⟩]) := by
  rfl

/-- C3: on every response whose status differs from the expected status
code, call_api returns Python None with no exception, and emits exactly one
log line, an error rendering the method, the path, the received status and
the response body. -/
theorem C3_mismatch_returns_none_logs_one_error
    (url_parameters method : String) (status_code : Nat) (resp : Response)
    (h : resp.status_code ≠ status_code) :
    call_api url_parameters method status_code resp
      = (Except.ok none,
         [⟨LogLevel.error,
           method ++ " for record \"" ++ url_parameters
             ++ "\" failed. Reason: " ++ toString resp.status_code
             ++ " - " ++ resp.content⟩]) := by
  unfold call_api
  rw [if_neg h]

/-- C3 witness: the theorem applied to a concrete mismatching response. -/
theorem C3_mismatch_returns_none_logs_one_error_witness :
    call_api ("/bibs/9912345") ("GET") 200 ⟨400, ("<error/>")⟩
      = (Except.ok none,
         [⟨LogLevel.error,
           ("GET") ++ " for record \"" ++ ("/bibs/9912345")
             ++ "\" failed. Reason: " ++ toString (400 : Nat)
             ++ " - " ++ ("<error/>")⟩]) :=
  C3_mismatch_returns_none_logs_one_error ("/bibs/9912345") ("GET") 200
    ⟨400, ("<error/>")⟩ (by decide)

/-- One row of the table job_status_per_id. -/
structure JobStatusRow where
  alma_id : String
  job_action : String
  job_status : String
  job_timestamp : Nat
  deriving Repr, DecidableEq

/-- The four tables the namespaced generation writes. Rows of
fetched_records, sent_records and put_post_responses are (alma_id,
record_data, job_timestamp) triples. -/
structure DbState where
  job_status_per_id : List JobStatusRow
  fetched_records : List (String × String × Nat)
  sent_records : List (String × String × Nat)
  put_post_responses : List (String × String × Nat)
  deriving Repr, DecidableEq

/-- Modelled from the spec: db_read_write.add_alma_id_to_job_status_per_id
is not under src. Spec section 4.5: addAlmaIdToJobStatus(almaId, action,
timestamp, session) inserts one JobStatusEntry with status new; the
identifier is the first parameter and the action the second. -/
def add_alma_id_to_job_status_per_id
    (alma_id action : String) (job_timestamp : Nat) (db : DbState) : DbState :=
  { db with job_status_per_id :=
      db.job_status_per_id ++ [⟨alma_id, action, ("new"), job_timestamp⟩] }

/-- Row transformer of update_job_status: sets the status on a row matching
(alma_id, action, timestamp) and leaves every other row alone. -/
def set_status_on_match (status alma_id action : String) (job_timestamp : Nat)
    (r : JobStatusRow) : JobStatusRow :=
  if r.alma_id = alma_id ∧ r.job_action = action ∧ r.job_timestamp = job_timestamp
  then { r with job_status := status } else r

/-- Modelled from the spec: db_read_write.update_job_status is not under
src. Spec section 4.5: updateJobStatus(status, almaId, action, timestamp,
session) updates the matching row status, matched on (almaId, action,
timestamp). -/
def update_job_status (status alma_id action : String) (job_timestamp : Nat)
    (db : DbState) : DbState :=
  { db with job_status_per_id :=
      db.job_status_per_id.map (set_status_on_match status alma_id action job_timestamp) }

/-- Modelled from the spec: addResponseContentToFetchedRecords of section
4.5 inserts one FetchedRecord row. -/
def add_response_content_to_fetched_records
    (alma_id record_data : String) (job_timestamp : Nat) (db : DbState) : DbState :=
  { db with fetched_records :=
      db.fetched_records ++ [(alma_id, record_data, job_timestamp)] }

/-- Modelled from the spec: addSentRecord of section 4.5 inserts one
SentRecord row. -/
def add_sent_record
    (alma_id record_data : String) (job_timestamp : Nat) (db : DbState) : DbState :=
  { db with sent_records :=
      db.sent_records ++ [(alma_id, record_data, job_timestamp)] }

/-- Modelled from the spec: addPutPostResponse of section 4.5 inserts one
PutPostResponse row. -/
def add_put_post_response
    (alma_id response_data : String) (job_timestamp : Nat) (db : DbState) : DbState :=
  { db with put_post_responses :=
      db.put_post_responses ++ [(alma_id, response_data, job_timestamp)] }

/-- Python truthiness of an optional string: None and the empty string are
falsy, every other string is truthy. -/
def py_falsy : Option String → Bool
  | none => true
  | some s => s.data.isEmpty

/-- Results the instantiated resource API object returns for the three
calls call_api_for_record can make on one record; none models the absent
value call_api yields on a non-matching status. -/
structure ApiBehavior where
  retrieve_result : Option String
  delete_result : Option String
  update_result : Option String

/-- Embeds call_api_for_record (src/alma_rest/alma_rest.py lines 86 to
176), parameterised by the API results and the caller-supplied
manipulate_record function. Session commits do not change the modelled
state; check_data_sent_equals_response only logs and is omitted. The pair
holds the outcome (raised exception or normal return) together with the
database state at that moment, so an early raise exposes the untouched
state. -/
def call_api_for_record (alma_id method : String) (job_timestamp : Nat)
    (api : ApiBehavior) (manipulate_record : String → String → Option String)
    (db : DbState) : Except PyError Unit × DbState :=
  if method ∉ ([("DELETE"), ("GET"), ("PUT"), ("POST")] : List String) then
    (Except.error PyError.valueError, db)
  else if method = ("POST") then
    (Except.error PyError.notImplementedError, db)
  else
    let db1 := add_alma_id_to_job_status_per_id alma_id ("GET") job_timestamp db
    let record_data := api.retrieve_result
    if py_falsy record_data then
      (Except.ok (), update_job_status ("error") alma_id ("GET") job_timestamp db1)
    else
      let fetched := record_data.getD ("")
      let db2 := add_response_content_to_fetched_records alma_id fetched job_timestamp db1
      let db3 := update_job_status ("done") alma_id ("GET") job_timestamp db2
      if method = ("DELETE") then
        let db4 := add_alma_id_to_job_status_per_id alma_id method job_timestamp db3
        match api.delete_result with
        | none => (Except.ok (), update_job_status ("error") alma_id method job_timestamp db4)
        | some _ => (Except.ok (), update_job_status ("done") alma_id method job_timestamp db4)
      else if method = ("PUT") then
        let db4 := add_alma_id_to_job_status_per_id alma_id method job_timestamp db3
        let new_record_data := manipulate_record alma_id fetched
        if py_falsy new_record_data then
          (Except.ok (), update_job_status ("error") alma_id method job_timestamp db4)
        else
          let response := api.update_result
          if py_falsy response then
            (Except.ok (), update_job_status ("error") alma_id method job_timestamp db4)
          else
            let db5 := add_put_post_response alma_id (response.getD ("")) job_timestamp db4
            let db6 := add_sent_record alma_id (new_record_data.getD ("")) job_timestamp db5
            (Except.ok (), update_job_status ("done") alma_id method job_timestamp db6)
      else
        (Except.ok (), db3)

/-- Rows whose alma_id differs from the one being updated are untouched by
the update map. -/
theorem map_set_status_of_ne (status alma_id action : String) (ts : Nat)
    (l : List JobStatusRow) (h : ∀ r ∈ l, r.alma_id ≠ alma_id) :
    l.map (set_status_on_match status alma_id action ts) = l := by
  induction l with
  | nil => rfl
  | cons r rest ih =>
    have hr := h r (List.mem_cons_self r rest)
    have hrest := ih (fun s hs => h s (List.mem_cons_of_mem r hs))
    simp [set_status_on_match, hr, hrest]

/-- A row matching identifier, action and timestamp gets the new status. -/
theorem set_status_on_match_hit (status old alma_id action : String) (ts : Nat) :
    set_status_on_match status alma_id action ts ⟨alma_id, action, old, ts⟩
      = ⟨alma_id, action, status, ts⟩ := by
  simp [set_status_on_match]

/-- A row for the same identifier but a different action is untouched. -/
theorem set_status_on_match_miss_action
    (status alma_id action other old : String) (ts : Nat) (h : other ≠ action) :
    set_status_on_match status alma_id action ts ⟨alma_id, other, old, ts⟩
      = ⟨alma_id, other, old, ts⟩ := by
  simp [set_status_on_match, h]

/-- Computation rule: Python None is falsy. -/
theorem py_falsy_none : py_falsy none = true := rfl

/-- C6: call_api_for_record raises NotImplementedError for POST and
ValueError for any method outside DELETE, GET, PUT, POST; both raises
happen before any job-status registration or other database write, so the
state is returned unchanged. -/
theorem C6_early_raises_leave_state_unchanged
    (alma_id : String) (ts : Nat) (api : ApiBehavior)
    (manipulate_record : String → String → Option String) (db : DbState) :
    call_api_for_record alma_id ("POST") ts api manipulate_record db
      = (Except.error PyError.notImplementedError, db)
    ∧ ∀ method : String,
        method ∉ ([("DELETE"), ("GET"), ("PUT"), ("POST")] : List String) →
        call_api_for_record alma_id method ts api manipulate_record db
          = (Except.error PyError.valueError, db) := by
  constructor
  · unfold call_api_for_record
    rw [if_neg (by decide), if_pos rfl]
  · intro method h
    unfold call_api_for_record
    rw [if_pos h]

/-- C6 witness: the theorem applied to the unsupported method PATCH on an
empty database. -/
theorem C6_early_raises_leave_state_unchanged_witness :
    call_api_for_record ("9912345") ("PATCH") 0 ⟨none, none, none⟩
        (fun _ _ => none) ⟨[], [], [], []⟩
      = (Except.error PyError.valueError, ⟨[], [], [], []⟩) :=
  (C6_early_raises_leave_state_unchanged ("9912345") 0 ⟨none, none, none⟩
      (fun _ _ => none) ⟨[], [], [], []⟩).2 ("PATCH") (by decide)

/-- C7: a PUT invocation whose GET succeeds but whose caller-supplied
transform yields no value ends normally with exactly one new (PUT, error)
job-status row following the (GET, done) row, while sent_records and
put_post_responses are exactly as before and every pre-existing job-status
row is untouched. -/
theorem C7_put_transform_failure_frame
    (alma_id : String) (ts : Nat) (api : ApiBehavior)
    (manipulate_record : String → String → Option String) (db : DbState)
    (hdb : ∀ r ∈ db.job_status_per_id, r.alma_id ≠ alma_id)
    (hget : py_falsy api.retrieve_result = false)
    (hman : manipulate_record alma_id (api.retrieve_result.getD ("")) = none) :
    call_api_for_record alma_id ("PUT") ts api manipulate_record db
      = (Except.ok (),
         { db with
             job_status_per_id := db.job_status_per_id
               ++ [⟨alma_id, ("GET"), ("done"), ts⟩,
                   ⟨alma_id, ("PUT"), ("error"), ts⟩],
             fetched_records := db.fetched_records
               ++ [(alma_id, api.retrieve_result.getD (""), ts)] }) := by
  have h1 : ¬ ((("PUT") : String)
      ∉ ([("DELETE"), ("GET"), ("PUT"), ("POST")] : List String)) := by decide
  have hmap1 : db.job_status_per_id.map
        (set_status_on_match ("done") alma_id ("GET") ts)
      = db.job_status_per_id := map_set_status_of_ne _ _ _ _ _ hdb
  have hmap2 : db.job_status_per_id.map
        (set_status_on_match ("error") alma_id ("PUT") ts)
      = db.job_status_per_id := map_set_status_of_ne _ _ _ _ _ hdb
  have hmap3 : db.job_status_per_id.map
        (set_status_on_match ("error") alma_id ("PUT") ts
          ∘ set_status_on_match ("done") alma_id ("GET") ts)
      = db.job_status_per_id := by
    rw [← List.map_map, hmap1, hmap2]
  simp [call_api_for_record, h1, hget, hman, py_falsy_none,
    add_alma_id_to_job_status_per_id, add_response_content_to_fetched_records,
    update_job_status, hmap1, hmap2, hmap3,
    set_status_on_match_hit, set_status_on_match_miss_action]

/-- C7 witness: the theorem applied to a concrete record whose transform
returns None, starting from the empty database. -/
theorem C7_put_transform_failure_frame_witness :
    call_api_for_record ("9912345") ("PUT") 5
        ⟨some ("<?xml version=\"1.0\"?><bib/>"), none, none⟩
        (fun _ _ => none) ⟨[], [], [], []⟩
      = (Except.ok (),
         { (⟨[], [], [], []⟩ : DbState) with
             job_status_per_id :=
               ([] : List JobStatusRow)
                 ++ [⟨("9912345"), ("GET"), ("done"), 5⟩,
                     ⟨("9912345"), ("PUT"), ("error"), 5⟩],
             fetched_records :=
               ([] : List (String × String × Nat))
                 ++ [(("9912345"),
                      (some ("<?xml version=\"1.0\"?><bib/>") : Option String).getD (""),
                      5)] }) :=
  C7_put_transform_failure_frame ("9912345") 5
    ⟨some ("<?xml version=\"1.0\"?><bib/>"), none, none⟩
    (fun _ _ => none) ⟨[], [], [], []⟩
    (by intro r hr; cases hr) (by rfl) (by rfl)

/-- C9: the success test differs by phase. Starting from the empty
database: a GET whose client result is the empty string (falsy) marks the
GET row error; a PUT whose update response is the empty string marks the
PUT row error; a DELETE whose client result is the empty string, as a 204
response body is, is only compared against None and so marks the DELETE
row done. -/
theorem C9_success_tests_differ_by_phase (alma_id : String) (ts : Nat) :
    call_api_for_record alma_id ("GET") ts ⟨some (""), none, none⟩
        (fun _ _ => none) ⟨[], [], [], []⟩
      = (Except.ok (), ⟨[⟨alma_id, ("GET"), ("error"), ts⟩], [], [], []⟩)
    ∧ call_api_for_record alma_id ("PUT") ts
        ⟨some ("<?xml a"), none, some ("")⟩
        (fun _ rd => some rd) ⟨[], [], [], []⟩
      = (Except.ok (),
         ⟨[⟨alma_id, ("GET"), ("done"), ts⟩, ⟨alma_id, ("PUT"), ("error"), ts⟩],
          [(alma_id, ("<?xml a"), ts)], [], []⟩)
    ∧ call_api_for_record alma_id ("DELETE") ts
        ⟨some ("<?xml a"), some (""), none⟩
        (fun _ _ => none) ⟨[], [], [], []⟩
      = (Except.ok (),
         ⟨[⟨alma_id, ("GET"), ("done"), ts⟩, ⟨alma_id, ("DELETE"), ("done"), ts⟩],
          [(alma_id, ("<?xml a"), ts)], [], []⟩) := by
  refine ⟨?_, ?_, ?_⟩ <;>
    simp [call_api_for_record, py_falsy,
      add_alma_id_to_job_status_per_id, add_response_content_to_fetched_records,
      update_job_status, set_status_on_match]

/-- Embeds the loop of call_api_for_list (src/alma_rest/alma_rest.py lines
60 to 83): call_api_for_record is applied to each id in order; a raised
exception propagates and stops the loop. log_success_rate only logs and is
omitted. -/
def call_api_for_list (alma_ids : List String) (method : String)
    (job_timestamp : Nat) (api : String → ApiBehavior)
    (manipulate_record : String → String → Option String)
    (db : DbState) : Except PyError Unit × DbState :=
  match alma_ids with
  | [] => (Except.ok (), db)
  | alma_id :: rest =>
    match call_api_for_record alma_id method job_timestamp (api alma_id)
        manipulate_record db with
    | (Except.ok _, db1) =>
      call_api_for_list rest method job_timestamp api manipulate_record db1
    | (Except.error e, db1) => (Except.error e, db1)

/-- Embeds the guard of src/alma_rest/alma_rest.py line 49, which reads:
if type(alma_id_list) is None. The Python builtin type returns a class
object for every value, None included, so the comparison with None is False
for every argument. -/
def type_is_none (_alma_id_list : Option (List String)) : Bool :=
  false

/-- Embeds call_api_for_set (src/alma_rest/alma_rest.py lines 28 to 57).
The member resolution result is a parameter, since rest_conf is not under
src; spec section 4.8 says retrieveSetMemberAlmaIds returns the ordered
member ids, and an empty or absent collection when the set has no members
or does not exist. Line 46 of the source passes the literal GET as the
first argument of add_alma_id_to_job_status_per_id (its alma_id parameter)
and set_id as the second (its action parameter); the embedding keeps that
argument order. Iterating the member loop over an absent collection raises
TypeError. The triple holds the outcome, the final database state and the
error log lines this function itself emits; the log text leaves out the
possessive apostrophe of the source message. -/
def call_api_for_set (set_id method : String) (job_timestamp : Nat)
    (alma_id_list : Option (List String)) (api : String → ApiBehavior)
    (manipulate_record : String → String → Option String)
    (db : DbState) : Except PyError Unit × DbState × List LogEntry :=
  let db1 := add_alma_id_to_job_status_per_id ("GET") set_id job_timestamp db
  let guard_taken := type_is_none alma_id_list
  let db2 :=
    if guard_taken then update_job_status ("error") set_id ("GET") job_timestamp db1
    else db1
  let logs : List LogEntry :=
    if guard_taken then
      [⟨LogLevel.error,
        ("An error occurred while retrieving the set members. Is the set ")
          ++ set_id ++ " empty?"⟩]
    else []
  match alma_id_list with
  | none => (Except.error PyError.typeError, db2, logs)
  | some ids =>
    match call_api_for_list ids method job_timestamp api manipulate_record db2 with
    | (Except.error e, db3) => (Except.error e, db3, logs)
    | (Except.ok _, db3) =>
      (Except.ok (), update_job_status ("done") set_id ("GET") job_timestamp db3, logs)

/-- C4: the claim says a set whose membership resolution yields an empty or
absent collection gets its own job-status row set to error, with an error
logged, before the list delegation. Evaluating the code on a set resolving
to the empty collection shows neither happens: the guard comparing a type
object against None is false on every argument, so no error line is logged,
no error status is written, and the single row written for the set still
has status new when the call returns. -/
theorem C4_empty_set_records_no_error :
    call_api_for_set ("S123") ("GET") 7 (some [])
        (fun _ => ⟨none, none, none⟩) (fun _ _ => none) ⟨[], [], [], []⟩
      = (Except.ok (), ⟨[⟨("GET"), ("S123"), ("new"), 7⟩], [], [], []⟩, [])
    ∧ ∀ alma_id_list : Option (List String), type_is_none alma_id_list = false :=
  ⟨rfl, fun _ => rfl⟩

/-- C5: the claim says the job-status row registered for the set carries
the set id in the alma_id field and GET in the action field. Evaluating
call_api_for_set on set id S77 shows the single registered row instead has
the literal GET in the alma_id field and the set id in the action field:
line 46 of the source passes the two arguments in the opposite of the
declared parameter order. -/
theorem C5_set_row_arguments_swapped :
    ((call_api_for_set ("S77") ("GET") 3 (some [])
        (fun _ => ⟨none, none, none⟩) (fun _ _ => none)
        ⟨[], [], [], []⟩).2.1).job_status_per_id
      = [⟨("GET"), ("S77"), ("new"), 3⟩]
    ∧ (⟨("GET"), ("S77"), ("new"), 3⟩ : JobStatusRow).alma_id ≠ ("S77") :=
  ⟨rfl, by decide⟩

/-- The rest_bibs convenience call the flat loop dispatches to, together
with the arguments handed to it; rest_bibs itself is not under src, so the
call made is the observable of the dispatch. -/
inductive BibsCall
  | get_bib (alma_id : String)
  | get_hol (mms_id hol_id : String)
  | get_item (mms_id hol_id itm_id : String)
  | get_portfolio (mms_id portfolio_id : String)
  | get_e_collection (mms_id collection_id : String)
  deriving Repr, DecidableEq

/-- Python list indexing lst[i] for nonnegative i: IndexError when out of
range. -/
def py_index (l : List String) (i : Nat) : Except PyError String :=
  match l.get? i with
  | some v => Except.ok v
  | none => Except.error PyError.indexError

/-- Python index -1 on a split result: str.split always returns a nonempty
list, so the default branch is unreachable on such inputs and the last
element is returned. -/
def py_last (l : List String) : String :=
  (l.getLast?).getD ("")

/-- Embeds the dispatch of one loop iteration of
get_records_via_api_for_csv_list (alma_rest.py lines 48 to 71): the two
leading characters of the last comma-separated segment select the
rest_bibs call; an unrecognized value produces no call and the error log
line of the source; a missing ancestor segment raises IndexError exactly
where the Python indexing would. -/
def dispatch_for_alma_id (alma_id : String) :
    Except PyError (Option BibsCall × List LogEntry) := do
  let split_alma_id := splitComma alma_id
  let id_pfx := strTake (py_last split_alma_id) 2
  if id_pfx = ("99") then
    return (some (BibsCall.get_bib alma_id), [])
  else if id_pfx = ("22") then
    let mms_id ← py_index split_alma_id 0
    let hol_id ← py_index split_alma_id 1
    return (some (BibsCall.get_hol mms_id hol_id), [])
  else if id_pfx = ("23") then
    let mms_id ← py_index split_alma_id 0
    let hol_id ← py_index split_alma_id 1
    let itm_id ← py_index split_alma_id 2
    return (some (BibsCall.get_item mms_id hol_id itm_id), [])
  else if id_pfx = ("53") then
    let mms_id ← py_index split_alma_id 0
    let portfolio_id ← py_index split_alma_id 1
    return (some (BibsCall.get_portfolio mms_id portfolio_id), [])
  else if id_pfx = ("61") then
    let mms_id ← py_index split_alma_id 0
    let collection_id ← py_index split_alma_id 1
    return (some (BibsCall.get_e_collection mms_id collection_id), [])
  else
    return (none,
      [⟨LogLevel.error,
        ("Alma-Id does not have one of the expected prefixes (99, 22, 23 or 53).")⟩])

/-- Modelled from the spec: db_read_write.update_job_status_for_alma_id of
the flat generation is not under src; it sets the job status on the rows of
(alma_id, job_timestamp). -/
def update_job_status_for_alma_id (status alma_id : String)
    (job_timestamp : Nat) (db : DbState) : DbState :=
  { db with job_status_per_id := db.job_status_per_id.map (fun r =>
      if r.alma_id = alma_id ∧ r.job_timestamp = job_timestamp
      then { r with job_status := status } else r) }

/-- Modelled from the spec: db_read_write.add_fetched_record_to_session of
the flat generation is not under src; it inserts one fetched_records row. -/
def add_fetched_record_to_session (alma_id record_data : String)
    (job_timestamp : Nat) (db : DbState) : DbState :=
  { db with fetched_records :=
      db.fetched_records ++ [(alma_id, record_data, job_timestamp)] }

/-- Embeds one full iteration of the loop of
get_records_via_api_for_csv_list (alma_rest.py lines 47 to 76): dispatch,
then the result of the rest_bibs call made (given by fetch; no call is made
for an unrecognized value, leaving record_data None), then the job-status
update and, on success, the fetched-record insert. -/
def process_csv_alma_id (alma_id : String) (job_timestamp : Nat)
    (fetch : BibsCall → Option String) (db : DbState) :
    Except PyError (DbState × List LogEntry) := do
  let (made_call, logs) ← dispatch_for_alma_id alma_id
  let record_data :=
    match made_call with
    | some c => fetch c
    | none => none
  match record_data with
  | none =>
    return (update_job_status_for_alma_id ("error") alma_id job_timestamp db, logs)
  | some d =>
    return (add_fetched_record_to_session alma_id d job_timestamp
      (update_job_status_for_alma_id ("done") alma_id job_timestamp db), logs)

/-- C8: in the flat generation, an identifier whose last-segment two-digit
value is 99 dispatches to get_bib with the full identifier; 22 dispatches
to get_hol with the first segment as MMS id and the second as holding id;
and every identifier with a value outside the recognized five logs the
error line, produces no record data and gets its job-status row set to
error. -/
theorem C8_flat_dispatch
    : dispatch_for_alma_id ("996778783901234")
        = Except.ok (some (BibsCall.get_bib ("996778783901234")), [])
    ∧ dispatch_for_alma_id ("2267452500001234,2217452500001234")
        = Except.ok
            (some (BibsCall.get_hol ("2267452500001234") ("2217452500001234")), [])
    ∧ ∀ (alma_id : String) (ts : Nat) (fetch : BibsCall → Option String)
        (db : DbState),
        strTake (py_last (splitComma alma_id)) 2
            ∉ ([("99"), ("22"), ("23"), ("53"), ("61")] : List String) →
        process_csv_alma_id alma_id ts fetch db
          = Except.ok
              (update_job_status_for_alma_id ("error") alma_id ts db,
               [⟨LogLevel.error,
                 ("Alma-Id does not have one of the expected prefixes (99, 22, 23 or 53).")⟩]) := by
  refine ⟨by rfl, by rfl, ?_⟩
  intro alma_id ts fetch db h
  simp only [List.mem_cons, List.not_mem_nil, or_false, not_or] at h
  obtain ⟨h99, h22, h23, h53, h61⟩ := h
  simp [process_csv_alma_id, dispatch_for_alma_id, h99, h22, h23, h53, h61,
    pure, Except.pure, Bind.bind, Except.bind]

/-- C8 witness: the unrecognized-value branch of the theorem applied to the
identifier 12345, whose two leading digits are 12, on the empty database. -/
theorem C8_flat_dispatch_witness :
    process_csv_alma_id ("12345") 0 (fun _ => none) ⟨[], [], [], []⟩
      = Except.ok
          (update_job_status_for_alma_id ("error") ("12345") 0 ⟨[], [], [], []⟩,
           [⟨LogLevel.error,
             ("Alma-Id does not have one of the expected prefixes (99, 22, 23 or 53).")⟩]) :=
  (C8_flat_dispatch).2.2 ("12345") 0 (fun _ => none) ⟨[], [], [], []⟩ (by decide)

/-- One parsed row of the input file: the ordered column-to-value mapping
of one line, first column first. -/
abbrev CsvRow := List (String × String)

/-- First column value of a parsed row; the rows considered have at least
one column. -/
def first_column (row : CsvRow) : String :=
  ((row.head?).getD ((""), (""))).1

/-- Modelled from the spec: the identifier validation of input_read is not
under src. Spec section 4.2: the first column must look like a valid
AlmaIdentifier, that is numeric comma-joined segments with a recognized
two-digit value leading the last segment. -/
def is_valid_alma_identifier (s : String) : Bool :=
  let segs := splitComma s
  segs.all (fun seg => (!seg.data.isEmpty) && seg.data.all Char.isDigit)
    && decide (strTake (py_last segs) 2
        ∈ ([("99"), ("22"), ("23"), ("53"), ("61")] : List String))

/-- Modelled from the spec: input_read.read_csv_contents is not under src.
Spec section 4.2: it yields one field-to-value row mapping per line; when
validation is true, rows whose first column fails the identifier check are
skipped with a logged warning; when validation is false every parsed row is
yielded. The parsed rows of the file stand in for the path argument. -/
def read_csv_contents (parsed_rows : List CsvRow) (validation : Bool) :
    List CsvRow :=
  if validation then
    parsed_rows.filter (fun row => is_valid_alma_identifier (first_column row))
  else parsed_rows

/-- Embeds CsvHelper (src/almapipo/input_helpers.py lines 18 to 42):
construction materializes the row list read_csv_contents returns. -/
structure CsvHelper where
  csv_line_list : List CsvRow

/-- Embeds a CsvHelper construction with an explicit validation argument. -/
def CsvHelper.init (parsed_rows : List CsvRow) (validation : Bool) : CsvHelper :=
  ⟨read_csv_contents parsed_rows validation⟩

/-- Embeds a CsvHelper construction that omits the validation argument: the
declared default of the validation parameter of the source is false. -/
def CsvHelper.init_default (parsed_rows : List CsvRow) : CsvHelper :=
  CsvHelper.init parsed_rows false

/-- C10: a CsvHelper constructed without an explicit validation argument
passes validation false to the row reader, so first-column identifier
validation is disabled by default and every parsed row is kept. -/
theorem C10_default_validation_disabled (parsed_rows : List CsvRow) :
    CsvHelper.init_default parsed_rows = CsvHelper.init parsed_rows false
    ∧ (CsvHelper.init_default parsed_rows).csv_line_list = parsed_rows := by
  constructor
  · rfl
  · simp [CsvHelper.init_default, CsvHelper.init, read_csv_contents]

end Almapipo
